import Mathlib

/-!
Shallow embedding of the `react-minimal-wa-bubble` widget component
(`src/unnamed/part_000`, the `WhatsAppWidget` React component).

The component's pure logic is embedded as Lean functions; its event-driven
state (the `useState` hooks `isOpen`, `message`, `mounted`) is embedded as an
explicit state record with a step function over discrete UI events.  The
deferred-focus `setTimeout` effect is embedded as a separate small-step
trace semantics that tracks scheduled timers and ref attachment.
-/

namespace WaBubble

/-- The `position` prop: one of the four screen corners
(`"bottom-right" | "bottom-left" | "top-right" | "top-left"`). -/
inductive Position where
  | bottomRight
  | bottomLeft
  | topRight
  | topLeft
  deriving DecidableEq, Repr

/-- The literal string value of the `position` prop, as written in the
TypeScript union type. -/
def Position.str : Position → String
  | .bottomRight => "bottom-right"
  | .bottomLeft => "bottom-left"
  | .topRight => "top-right"
  | .topLeft => "top-left"

/-- `WhatsAppWidgetProps` (source lines 6-61).  Optional props carry their
source-side defaults from the destructuring on lines 63-75; `businessLogo`
is `string | undefined`, modelled as `Option String`. -/
structure WhatsAppWidgetProps where
  phoneNumber : String
  defaultMessage : String := ""
  position : Position := .bottomRight
  businessName : String
  businessLogo : Option String := none
  primaryColor : String := "#25D366"
  welcomeMessage : String := "Hello! How can I help you today?"
  inputPlaceholder : String := "Type a message..."
  initiallyOpen : Bool := false
  className : String := ""
  showTimestamp : Bool := true
  deriving Repr

/-- The three `useState` hooks of the component (source lines 76-78):
`isOpen`, `message`, `mounted`. -/
structure WidgetState where
  isOpen : Bool
  message : String
  mounted : Bool
  deriving DecidableEq, Repr

/-- Initial hook values (source lines 76-78):
`useState(initiallyOpen)`, `useState(defaultMessage)`, `useState(false)`. -/
def initState (p : WhatsAppWidgetProps) : WidgetState :=
  { isOpen := p.initiallyOpen, message := p.defaultMessage, mounted := false }

/-! ### `encodeURIComponent`

JavaScript's `encodeURIComponent` leaves the unreserved characters
`A-Z a-z 0-9 - _ . ! ~ * ' ( )` literal and percent-encodes every other
character as the uppercase-hex encoding of each of its UTF-8 bytes. -/

/-- Characters `encodeURIComponent` leaves unescaped: ASCII alphanumerics
and `- _ . ! ~ * ' ( )`. -/
def isURIComponentUnescaped (c : Char) : Bool :=
  (('A' ≤ c && c ≤ 'Z') || ('a' ≤ c && c ≤ 'z') || ('0' ≤ c && c ≤ '9')
    || c = '-' || c = '_' || c = '.' || c = '!' || c = '~'
    || c = '*' || c = '\'' || c = '(' || c = ')')

/-- The UTF-8 bytes of a character, as natural numbers below 256. -/
def utf8Bytes (c : Char) : List Nat :=
  let n := c.toNat
  if n < 0x80 then [n]
  else if n < 0x800 then [0xC0 + n / 64, 0x80 + n % 64]
  else if n < 0x10000 then
    [0xE0 + n / 4096, 0x80 + (n / 64) % 64, 0x80 + n % 64]
  else
    [0xF0 + n / 262144, 0x80 + (n / 4096) % 64, 0x80 + (n / 64) % 64,
      0x80 + n % 64]

/-- Uppercase hexadecimal digit for a value below 16. -/
def hexDigit (n : Nat) : Char :=
  if n < 10 then Char.ofNat (48 + n) else Char.ofNat (55 + n)

/-- `%XX` escape of one byte, uppercase hex as produced by
`encodeURIComponent`. -/
def pctByte (b : Nat) : String :=
  "%" ++ String.singleton (hexDigit (b / 16)) ++ String.singleton (hexDigit (b % 16))

/-- One character's contribution to the encoded output. -/
def encodeChar (c : Char) : String :=
  if isURIComponentUnescaped c then String.singleton c
  else String.join ((utf8Bytes c).map pctByte)

/-- JavaScript `encodeURIComponent`. -/
def encodeURIComponent (s : String) : String :=
  String.join (s.data.map encodeChar)

/-- The deep-link URL built by `handleWhatsAppClick` (source lines 98-101):
`https://wa.me/${phoneNumber}?text=${encodeURIComponent(message)}`. -/
def buildDeepLink (phoneNumber text : String) : String :=
  "https://wa.me/" ++ phoneNumber ++ "?text=" ++ encodeURIComponent text

/-! ### Event handlers and the state step function -/

/-- The floating button's click handler (source line 304):
`setIsOpen(!isOpen)`. -/
def toggleOpen (s : WidgetState) : WidgetState :=
  { s with isOpen := !s.isOpen }

/-- The header close button's click handler (source line 224):
`setIsOpen(false)`. -/
def closeChat (s : WidgetState) : WidgetState :=
  { s with isOpen := false }

/-- The textarea's change handler (source line 275):
`setMessage(e.target.value)` — the new value replaces `message`
unconditionally. -/
def setMessage (t : String) (s : WidgetState) : WidgetState :=
  { s with message := t }

/-- The mount effect (source lines 82-84): `setMounted(true)` once the
instance has attached client-side. -/
def mountEffect (s : WidgetState) : WidgetState :=
  { s with mounted := true }

/-- `handleWhatsAppClick` (source lines 98-101): reads `message`, builds the
deep link and asks the host to `window.open` it.  It calls no state setter,
so the hook state is returned unchanged alongside the opened URL. -/
def handleWhatsAppClick (p : WhatsAppWidgetProps) (s : WidgetState) :
    WidgetState × String :=
  (s, buildDeepLink p.phoneNumber s.message)

/-- The discrete UI events that drive the component's state. -/
inductive WEvent where
  | mount
  | toggle
  | close
  | setText (t : String)
  | send
  deriving DecidableEq, Repr

/-- One event's effect on the hook state, dispatching to the handler the
source attaches to that event. -/
def step (p : WhatsAppWidgetProps) : WEvent → WidgetState → WidgetState
  | .mount, s => mountEffect s
  | .toggle, s => toggleOpen s
  | .close, s => closeChat s
  | .setText t, s => setMessage t s
  | .send, s => (handleWhatsAppClick p s).1

/-- Run a sequence of events from a state. -/
def run (p : WhatsAppWidgetProps) (es : List WEvent) (s : WidgetState) :
    WidgetState :=
  es.foldl (fun a e => step p e a) s

/-! ### Render model

The component's return value (source lines 96 and 174-353), restricted to
the structure the claims are about: the `!mounted` early return, the
`isOpen &&` guard on the panel, the avatar branch, and the controlled
textarea. -/

/-- The header avatar (source lines 199-212): the `businessLogo ? ... : ...`
conditional renders the image when `businessLogo` is truthy, otherwise a
filled circle containing `businessName.charAt(0)`. -/
inductive AvatarView where
  | image (src : String)
  | fallbackInitial (txt : String)
  deriving DecidableEq, Repr

/-- JavaScript truthiness of a `string | undefined` value: `undefined` and
the empty string are falsy. -/
def truthyStr : Option String → Bool
  | none => false
  | some s => !(s == "")

/-- JavaScript `s.charAt(0)`: the first character as a one-character string,
or the empty string when `s` is empty. -/
def jsCharAt0 (s : String) : String :=
  match s.data with
  | [] => ""
  | c :: _ => String.singleton c

/-- The avatar branch (source lines 199-212). -/
def renderAvatar (p : WhatsAppWidgetProps) : AvatarView :=
  if truthyStr p.businessLogo then .image (p.businessLogo.getD "")
  else .fallbackInitial (jsCharAt0 p.businessName)

/-- The expanded chat panel's rendered content, as far as the claims refer
to it (source lines 178-299). -/
structure PanelView where
  headerName : String
  avatar : AvatarView
  welcome : String
  textareaValue : String
  placeholder : String
  deriving DecidableEq, Repr

/-- The panel subtree (source lines 178-299): header with name and avatar,
welcome bubble, and the controlled textarea whose `value` is the `message`
hook state (source line 274). -/
def renderPanel (p : WhatsAppWidgetProps) (s : WidgetState) : PanelView :=
  { headerName := p.businessName
    avatar := renderAvatar p
    welcome := p.welcomeMessage
    textareaValue := s.message
    placeholder := p.inputPlaceholder }

/-- The whole component (source lines 96, 174-353): `if (!mounted) return
null` (nothing renders), else a container whose panel child is present
exactly when `isOpen` (the `{isOpen && (...)}` guard on line 177). -/
def render (p : WhatsAppWidgetProps) (s : WidgetState) :
    Option (Option PanelView) :=
  if !s.mounted then none
  else some (if s.isOpen then some (renderPanel p s) else none)

/-- Whether the expanded panel is actually rendered. -/
def panelRendered (p : WhatsAppWidgetProps) (s : WidgetState) : Bool :=
  match render p s with
  | none => false
  | some pnl => pnl.isSome

/-! ### Animation variants (source lines 118-145)

`chatContainerVariants`: the entrance (`hidden`) offset is
`position.startsWith("top") ? -20 : 20` and the exit offset is
`position.startsWith("top") ? -15 : 15`. -/

/-- JavaScript `s.startsWith(pre)`, as a character-level prefix test. -/
def jsStartsWith (s pre : String) : Bool :=
  pre.data.isPrefixOf s.data

/-- `hidden.y` of `chatContainerVariants` (source line 121). -/
def hiddenY (p : Position) : Int :=
  if jsStartsWith p.str "top" then -20 else 20

/-- `exit.y` of `chatContainerVariants` (source line 138). -/
def exitYOffset (p : Position) : Int :=
  if jsStartsWith p.str "top" then -15 else 15

/-- Whether a corner is anchored to the top edge of the screen, read off the
corner value itself. -/
def Position.topAnchored : Position → Bool
  | .topRight => true
  | .topLeft => true
  | .bottomRight => false
  | .bottomLeft => false

/-! ### Deferred-focus timer semantics (source lines 87-93)

```
useEffect(() => {
  if (isOpen && inputRef.current) {
    setTimeout(() => { inputRef.current?.focus(); }, 300);
  }
}, [isOpen]);
```

The effect returns no cleanup function, so React never clears the timeout.
`AnimatePresence` keeps the panel (and the textarea behind `inputRef`)
mounted during the 0.2s exit animation after a close, and React nulls
`inputRef.current` on unmount.  The trace semantics below tracks the number
of scheduled-but-unfired timeouts, whether `inputRef.current` is non-null,
and how many times `.focus()` actually ran. -/

structure FocusState where
  isOpen : Bool
  refAttached : Bool
  unmounted : Bool
  pendingTimers : Nat
  focusCalls : Nat
  deriving DecidableEq, Repr

/-- The instance starts closed, with no textarea committed, no timer and no
focus call. -/
def initFocusState : FocusState :=
  { isOpen := false, refAttached := false, unmounted := false,
    pendingTimers := 0, focusCalls := 0 }

/-- Events of the focus-timer semantics: `openEvt` is an open transition
(state flips, the textarea commits and the `[isOpen]` effect runs),
`closeEvt` is a close transition (the effect re-runs with `isOpen` false;
the code supplies no cleanup, so nothing is cancelled; the textarea stays
attached for the exit animation), `exitDone` is the end of the exit
animation (panel removed, ref nulled), `unmountEvt` is instance teardown
(React nulls the ref; again no cleanup runs), and `timerFire` is one
scheduled timeout firing: its callback is `inputRef.current?.focus()`,
which focuses only when the ref is non-null. -/
inductive FEvent where
  | openEvt
  | closeEvt
  | exitDone
  | unmountEvt
  | timerFire
  deriving DecidableEq, Repr

/-- One step of the focus-timer semantics. -/
def focusStep : FEvent → FocusState → FocusState
  | .openEvt, s =>
      let s := { s with isOpen := true, refAttached := true }
      if s.isOpen && s.refAttached then
        { s with pendingTimers := s.pendingTimers + 1 }
      else s
  | .closeEvt, s => { s with isOpen := false }
  | .exitDone, s => { s with refAttached := false }
  | .unmountEvt, s => { s with unmounted := true, refAttached := false }
  | .timerFire, s =>
      if s.pendingTimers = 0 then s
      else
        let s := { s with pendingTimers := s.pendingTimers - 1 }
        if s.refAttached then { s with focusCalls := s.focusCalls + 1 } else s

/-- Run a sequence of focus events. -/
def focusRun (es : List FEvent) (s : FocusState) : FocusState :=
  es.foldl (fun a e => focusStep e a) s

/-- A sample configuration used by witness theorems. -/
def cfg0 : WhatsAppWidgetProps :=
  { phoneNumber := "15551234567", businessName := "Alice" }

/-- A configuration whose `businessLogo` is supplied but empty — falsy in
JavaScript. -/
def cfgEmptyLogo : WhatsAppWidgetProps :=
  { phoneNumber := "15551234567", businessName := "Alice",
    businessLogo := some "" }

/-- `step` never sets `mounted` back to `false`: no handler in the source
calls `setMounted(false)`. -/
theorem step_preserves_mounted (p : WhatsAppWidgetProps) (e : WEvent)
    (s : WidgetState) (h : s.mounted = true) : (step p e s).mounted = true := by
  cases e <;>
    simp [step, mountEffect, toggleOpen, closeChat, setMessage,
      handleWhatsAppClick, h]

/-- Unfolding `run` over a cons. -/
theorem run_cons (p : WhatsAppWidgetProps) (e : WEvent) (es : List WEvent)
    (s : WidgetState) : run p (e :: es) s = run p es (step p e s) := rfl

end WaBubble

namespace WaBubble

/-- Claim C1: for every `destinationId` and `text`, `buildDeepLink` returns
exactly `https://wa.me/{destinationId}?text={percentEncode(text)}` (scheme,
host, path and query key verbatim), and with empty text the encoded
component is empty: `buildDeepLink id "" = "https://wa.me/{id}?text="`. -/
theorem c1_deep_link_shape (phone text : String) :
    buildDeepLink phone text
      = "https://wa.me/" ++ phone ++ "?text=" ++ encodeURIComponent text
    ∧ buildDeepLink phone "" = "https://wa.me/" ++ phone ++ "?text=" := by
  refine ⟨rfl, ?_⟩
  show "https://wa.me/" ++ phone ++ "?text=" ++ encodeURIComponent "" = _
  rw [show encodeURIComponent "" = "" from rfl, String.append_empty]

/-- Claim C2, counterexample: the claimed output escapes `'!'` as `%21`,
but `encodeURIComponent` leaves `'!'` unescaped, so `buildDeepLink` does
not produce the claimed string. -/
theorem c2_counterexample :
    buildDeepLink "15551234567" "Hi there!"
      ≠ "https://wa.me/15551234567?text=Hi%20there%21" := by decide

/-- Claim C2, amended: `buildDeepLink "15551234567" "Hi there!"` returns
exactly `https://wa.me/15551234567?text=Hi%20there!` — the space is escaped
as `%20`, while `'!'` is in `encodeURIComponent`'s unescaped set and stays
literal. -/
theorem c2_amended :
    buildDeepLink "15551234567" "Hi there!"
      = "https://wa.me/15551234567?text=Hi%20there!"
    ∧ encodeChar ' ' = "%20" ∧ encodeChar '!' = "!" := by decide

/-- Claim C3: the focus effect (source lines 87-93) returns no cleanup, so
the 300ms timeout is never cancelled.  After open-then-close the timer is
still pending (likewise after open-then-unmount), and if it fires while the
exit animation still has the textarea attached, the deferred callback
really does call `.focus()` — contradicting the claim that a close or
unmount before the timer fires cancels it and prevents the callback from
executing. -/
theorem c3_timer_not_cancelled :
    (focusRun [FEvent.openEvt, FEvent.closeEvt] initFocusState).pendingTimers = 1
    ∧ (focusRun [FEvent.openEvt, FEvent.unmountEvt] initFocusState).pendingTimers
        = 1
    ∧ (focusRun [FEvent.openEvt, FEvent.closeEvt, FEvent.timerFire]
        initFocusState).focusCalls = 1 := by decide

/-- Claim C4: `toggleOpen` (the floating button's `setIsOpen(!isOpen)`) is
an involution on the visibility state: applied twice it restores `isOpen`,
and applied once it flips it. -/
theorem c4_toggle_involution (s : WidgetState) :
    (toggleOpen (toggleOpen s)).isOpen = s.isOpen
    ∧ (toggleOpen s).isOpen = !s.isOpen := by
  simp [toggleOpen]

/-- Claim C5: for every corner, the entrance (`hidden.y`) and exit
(`exit.y`) vertical offsets of `chatContainerVariants` are negative exactly
for the top-anchored corners and positive exactly for the bottom-anchored
ones. -/
theorem c5_offset_sign_matches_anchor (p : Position) :
    (hiddenY p < 0 ↔ p.topAnchored = true)
    ∧ (exitYOffset p < 0 ↔ p.topAnchored = true)
    ∧ (0 < hiddenY p ↔ p.topAnchored = false)
    ∧ (0 < exitYOffset p ↔ p.topAnchored = false) := by
  cases p <;> decide

/-- Claim C6: the send action (`handleWhatsAppClick`) calls no state
setter: it leaves the whole hook state — `message`, `isOpen`, `mounted` —
unchanged, and the configuration is immutable. -/
theorem c6_send_frame (p : WhatsAppWidgetProps) (s : WidgetState) :
    step p WEvent.send s = s ∧ (handleWhatsAppClick p s).1 = s :=
  ⟨rfl, rfl⟩

/-- Claim C7: the expanded panel is rendered exactly when
`mounted && isOpen`; when `mounted` is false nothing renders at all
(the early `return null`); and `mounted`, once true, stays true under every
event sequence (one-way latch). -/
theorem c7_panel_gate_and_latch (p : WhatsAppWidgetProps) (s : WidgetState) :
    panelRendered p s = (s.mounted && s.isOpen)
    ∧ (s.mounted = false → render p s = none)
    ∧ (∀ es : List WEvent, s.mounted = true → (run p es s).mounted = true) := by
  obtain ⟨o, m, mt⟩ := s
  refine ⟨?_, ?_, ?_⟩
  · cases mt <;> cases o <;> simp [panelRendered, render]
  · intro h
    subst h
    simp [render]
  · intro es h
    induction es generalizing o m mt with
    | nil => exact h
    | cons e es ih =>
        rw [run_cons]
        have h' := step_preserves_mounted p e ⟨o, m, mt⟩ h
        cases hs : step p e ⟨o, m, mt⟩ with
        | mk o' m' mt' =>
            rw [hs] at h'
            exact ih o' m' mt' h'

/-- Witness for C7 at a concrete configuration and state. -/
theorem c7_witness :
    render cfg0 { isOpen := true, message := "", mounted := false } = none
    ∧ (run cfg0 [WEvent.toggle, WEvent.send]
        { isOpen := false, message := "", mounted := true }).mounted = true :=
  ⟨(c7_panel_gate_and_latch cfg0 _).2.1 rfl,
    (c7_panel_gate_and_latch cfg0 _).2.2 [WEvent.toggle, WEvent.send] rfl⟩

/-- Claim C8: `setMessage` replaces `message` with exactly the new string —
no validation, cap or trimming — touches no other state field, and the
controlled textarea's displayed `value` is always exactly the stored
`message`. -/
theorem c8_set_text (t : String) (s : WidgetState) (p : WhatsAppWidgetProps) :
    (setMessage t s).message = t
    ∧ (setMessage t s).isOpen = s.isOpen
    ∧ (setMessage t s).mounted = s.mounted
    ∧ (renderPanel p (setMessage t s)).textareaValue = t
    ∧ (renderPanel p s).textareaValue = s.message :=
  ⟨rfl, rfl, rfl, rfl, rfl⟩

/-- Claim C9, counterexample: an `avatarUrl` that is supplied but empty is
falsy in JavaScript, so the `businessLogo ? img : initial` branch renders
the fallback initial, not the image — the claim that a supplied `avatarUrl`
always renders the image fails at `some ""`. -/
theorem c9_counterexample :
    cfgEmptyLogo.businessLogo = some ""
    ∧ renderAvatar cfgEmptyLogo = AvatarView.fallbackInitial "A"
    ∧ ∀ url, renderAvatar cfgEmptyLogo ≠ AvatarView.image url := by
  refine ⟨rfl, by decide, ?_⟩
  intro url h
  simp [renderAvatar, cfgEmptyLogo, truthyStr, jsCharAt0] at h

/-- Claim C9, amended: with no `avatarUrl` the avatar renders
`businessName.charAt(0)` — for nonempty `displayName` that is exactly its
first character, case-preserved with no transformation — and with a
non-empty `avatarUrl` (JavaScript truthiness treats the empty string as
absent) the image is rendered instead. -/
theorem c9_avatar (p : WhatsAppWidgetProps) :
    (p.businessLogo = none →
      renderAvatar p = AvatarView.fallbackInitial (jsCharAt0 p.businessName))
    ∧ (∀ c cs, p.businessLogo = none → p.businessName.data = c :: cs →
        renderAvatar p = AvatarView.fallbackInitial (String.singleton c))
    ∧ (∀ url, p.businessLogo = some url → url ≠ "" →
        renderAvatar p = AvatarView.image url) := by
  refine ⟨?_, ?_, ?_⟩
  · intro h
    simp [renderAvatar, truthyStr, h]
  · intro c cs h hd
    simp [renderAvatar, truthyStr, h, jsCharAt0, hd]
  · intro url h hne
    simp [renderAvatar, truthyStr, h, hne]

/-- Witness for C9 at concrete configurations. -/
theorem c9_witness :
    renderAvatar cfg0 = AvatarView.fallbackInitial "A"
    ∧ renderAvatar { cfg0 with businessLogo := some "https://x/y.png" }
        = AvatarView.image "https://x/y.png" :=
  ⟨(c9_avatar cfg0).2.1 'A' "lice".data rfl rfl,
    (c9_avatar _).2.2 "https://x/y.png" rfl (by decide)⟩

/-- Claim C10: `startOpen`/`defaultText` (`initiallyOpen`/`defaultMessage`)
only seed the initial hook state; no event's effect on the state depends on
them, so later changes to those prop values never alter `isOpen` or
`message`. -/
theorem c10_initial_values_only (p : WhatsAppWidgetProps) (v : Bool)
    (d : String) :
    initState p
      = { isOpen := p.initiallyOpen, message := p.defaultMessage,
          mounted := false }
    ∧ (∀ e s,
        step { p with initiallyOpen := v, defaultMessage := d } e s
          = step p e s)
    ∧ (∀ es s,
        run { p with initiallyOpen := v, defaultMessage := d } es s
          = run p es s) := by
  refine ⟨rfl, ?_, ?_⟩
  · intro e s
    cases e <;> rfl
  · intro es s
    induction es generalizing s with
    | nil => rfl
    | cons e es ih =>
        rw [run_cons, run_cons]
        have he : step { p with initiallyOpen := v, defaultMessage := d } e s
            = step p e s := by cases e <;> rfl
        rw [he]
        exact ih (step p e s)

end WaBubble
